import Mathlib

/-
Verification development for the SMA crossover analysis engine
(`sma_crossover_analysis.py`).  Prices are modelled as rationals; a NaN
moving-average cell (pandas `rolling` before the window fills) is modelled
as `none`.  A Python comparison against NaN is `False`, which the
`Option`-lifted comparisons below reproduce.
-/

namespace SMACrossover

/-- One OHLCV row of the raw fetched/synthetic DataFrame.  Timestamps are
modelled as integers (ordered, unique per series). -/
structure RawBar where
  date : ℤ
  open_ : ℚ
  high : ℚ
  low : ℚ
  close : ℚ
  volume : ℚ
deriving DecidableEq

/-- One row of the DataFrame after `calculate_sma` added the `SMA` column.
Only `date`, `Close` and `SMA` are ever read downstream.  `sma = none`
models a NaN cell. -/
structure Bar where
  date : ℤ
  close : ℚ
  sma : Option ℚ
deriving DecidableEq

instance : Inhabited Bar := ⟨⟨0, 0, none⟩⟩

instance : Inhabited RawBar := ⟨⟨0, 0, 0, 0, 0, 0⟩⟩

/-- Pandas `Series.rolling(window=w).mean()` at position `i` (default
`min_periods = window`): NaN (`none`) until the window fills, then the
arithmetic mean of the trailing `w` values. -/
def rollingMean (w : ℕ) (closes : List ℚ) (i : ℕ) : Option ℚ :=
  if w ≤ i + 1 then some (((closes.drop (i + 1 - w)).take w).sum / (w : ℚ)) else none

/-- Row `i` of the DataFrame produced by `calculate_sma`: the original row
with the `SMA` column cell attached. -/
def smaRow (period : ℕ) (d : List RawBar) (i : ℕ) : Bar :=
  { date := (d.getD i default).date
    close := (d.getD i default).close
    sma := rollingMean period (d.map (·.close)) i }

/-- `SMACrossoverAnalyzer.calculate_sma` (lines 134-141): `None` when the
data is missing or shorter than the SMA period; otherwise the same rows
with the rolling-mean `SMA` column attached. -/
def calculate_sma (period : ℕ) (data : Option (List RawBar)) : Option (List Bar) :=
  match data with
  | none => none
  | some d =>
    if d.length < period then none
    else some ((List.range d.length).map (smaRow period d))

/-- The rows surviving `df.dropna(subset=['SMA'])`, keeping only
`(Close, SMA)` with the SMA cell forced out of `Option`. -/
def validBars (df : List Bar) : List (ℚ × ℚ) :=
  df.filterMap fun b => b.sma.map fun s => (b.close, s)

/-- The original positions of the rows surviving the NaN drop (used to
relate dropped-frame positions back to series indices). -/
def validOrigIndices (df : List Bar) : List ℕ :=
  (List.range df.length).filter fun k => ((df.getD k default).sma).isSome

/-- `SMACrossoverAnalyzer.identify_crossovers` (lines 143-168): drop NaN
SMA rows, then for each adjacent pair of surviving rows report position
`i` (RELATIVE TO THE DROPPED FRAME) when close moved from strictly below
the SMA to at-or-above it.  (The Python `df is None` / missing-column
guards disappear at the type level.) -/
def identify_crossovers (df : List Bar) : List ℕ :=
  let v := validBars df
  if v.length < 2 then []
  else (List.range' 1 (v.length - 1)).filter fun i =>
    decide ((v.getD (i - 1) (0, 0)).1 < (v.getD (i - 1) (0, 0)).2) &&
    decide ((v.getD i (0, 0)).2 ≤ (v.getD i (0, 0)).1)

/-- Python `current_price <= current_sma` where the SMA cell may be NaN:
a comparison against NaN is `False`. -/
def leOpt (p : ℚ) (s : Option ℚ) : Bool :=
  match s with
  | some v => decide (p ≤ v)
  | none => false

/-- Result dictionary of `analyze_crossover` (lines 192-211). -/
structure OutcomeRecord where
  entry_price : ℚ
  entry_sma : Option ℚ
  entry_date : ℤ
  touched_sma_again : Bool
  days_to_touch_sma : Option ℕ
  bounced : Bool
  bounce_points : ℚ
  max_gain : ℚ
  max_gain_points : ℚ
  max_drawdown : ℚ
  max_drawdown_points : ℚ
  days_to_recovery : Option ℕ
  final_price : ℚ
  points_captured : ℚ
  profitable : Bool
  suggested_stoploss_pct : ℚ
  went_down_then_up : Bool
  went_up_continuously : Bool
deriving DecidableEq

instance : Inhabited OutcomeRecord :=
  ⟨⟨0, none, 0, false, none, false, 0, 0, 0, 0, 0, none, 0, 0, false, 0, false, false⟩⟩

/-- Mutable state of the forward-scan loop in `analyze_crossover`
(lines 213-216 plus the loop counter `i`). -/
structure ScanState where
  max_price : ℚ
  min_price : ℚ
  touched_sma : Bool
  days_to_touch : Option ℕ
  recovery_date : Option ℕ
  step_i : ℕ
deriving DecidableEq

/-- One iteration of the loop `for i in range(1, len(future_data))`
(lines 218-239): update running extremes, the first SMA touch, and the
first recovery to the entry price after a dip below it.  The recovery
test reads the already-updated running minimum, as the Python loop does. -/
def scanStep (entry : ℚ) (st : ScanState) (b : Bar) : ScanState :=
  let maxP := if st.max_price < b.close then b.close else st.max_price
  let minP := if b.close < st.min_price then b.close else st.min_price
  let touchNow := !st.touched_sma && leOpt b.close b.sma
  let recov :=
    if decide (entry ≤ b.close) && decide (minP < entry) && st.recovery_date.isNone
    then some st.step_i else st.recovery_date
  { max_price := maxP
    min_price := minP
    touched_sma := st.touched_sma || touchNow
    days_to_touch := if touchNow then some st.step_i else st.days_to_touch
    recovery_date := recov
    step_i := st.step_i + 1 }

/-- `SMACrossoverAnalyzer.analyze_crossover` (lines 170-266): `None` when
the event sits at or past the last usable index, otherwise the outcome
record computed by scanning the forward slice
`df.iloc[idx : min(idx + lookforward, len(df))]`. -/
def analyze_crossover (df : List Bar) (idx lookforward : ℕ) : Option OutcomeRecord :=
  if df.length - 1 ≤ idx then none
  else
    let entry_price := (df.getD idx default).close
    let entry_sma := (df.getD idx default).sma
    let entry_date := (df.getD idx default).date
    let end_idx := min (idx + lookforward) df.length
    let future := (df.drop idx).take (end_idx - idx)
    let st := (future.drop 1).foldl (scanStep entry_price)
      { max_price := entry_price, min_price := entry_price, touched_sma := false
        days_to_touch := none, recovery_date := none, step_i := 1 }
    let max_gain := (st.max_price - entry_price) / entry_price * 100
    let max_gain_points := st.max_price - entry_price
    let max_drawdown := (st.min_price - entry_price) / entry_price * 100
    let max_drawdown_points := st.min_price - entry_price
    let final_price := ((future.getLast?).getD default).close
    let points_captured := final_price - entry_price
    let bounced := decide (entry_price * (98 / 100) ≤ st.min_price)
    some
      { entry_price := entry_price
        entry_sma := entry_sma
        entry_date := entry_date
        touched_sma_again := st.touched_sma
        days_to_touch_sma := st.days_to_touch
        bounced := bounced
        bounce_points := if bounced then max_gain_points else 0
        max_gain := max_gain
        max_gain_points := max_gain_points
        max_drawdown := max_drawdown
        max_drawdown_points := max_drawdown_points
        days_to_recovery := st.recovery_date
        final_price := final_price
        points_captured := points_captured
        profitable := decide (0 < points_captured)
        suggested_stoploss_pct := if max_drawdown < -1 then |max_drawdown| + 1 else 2
        went_down_then_up := !bounced && st.recovery_date.isSome
        went_up_continuously := bounced }

/-- `np.mean` over a list of rationals. -/
def npMean (l : List ℚ) : ℚ := l.sum / (l.length : ℚ)

/-- The statistics dictionary compiled for a resolution with at least one
analyzed crossover (lines 314-337). -/
structure FullSummary where
  timeframe : String
  total_crossovers : ℕ
  touched_sma_count : ℕ
  bounced_count : ℕ
  avg_bounce_points : ℚ
  avg_points_captured : ℚ
  max_points_captured : ℚ
  min_points_captured : ℚ
  winning_trades : ℕ
  losing_trades : ℕ
  winning_rate : ℚ
  avg_max_gain : ℚ
  avg_max_gain_points : ℚ
  avg_max_drawdown : ℚ
  avg_max_drawdown_points : ℚ
  avg_suggested_stoploss : ℚ
  avg_days_to_recovery : Option ℚ
  went_down_then_up_count : ℕ
  went_up_continuously_count : ℕ
  data_points : ℕ
  period_start : Option ℤ
  period_end : Option ℤ
deriving DecidableEq

/-- A timeframe summary is either the zero-crossover dictionary of lines
295-301 (which carries NO derived statistics — in particular no winning
rate) or the full statistics dictionary of lines 314-337. -/
inductive TimeframeSummary where
  | empty (timeframe : String) (total_crossovers : ℕ) (data_points : ℕ)
      (period_start period_end : Option ℤ)
  | full (s : FullSummary)
deriving DecidableEq

/-- Lines 314-337: compile the statistics over the analyzed crossovers. -/
def mkFullSummary (name : String) (df : List Bar) (analyses : List OutcomeRecord) :
    FullSummary :=
  { timeframe := name
    total_crossovers := analyses.length
    touched_sma_count := (analyses.filter (·.touched_sma_again)).length
    bounced_count := (analyses.filter (·.bounced)).length
    avg_bounce_points :=
      if analyses.any (·.bounced)
      then npMean ((analyses.filter (·.bounced)).map (·.bounce_points)) else 0
    avg_points_captured := npMean (analyses.map (·.points_captured))
    max_points_captured := ((analyses.map (·.points_captured)).max?).getD 0
    min_points_captured := ((analyses.map (·.points_captured)).min?).getD 0
    winning_trades := (analyses.filter (·.profitable)).length
    losing_trades := (analyses.filter (fun a => !a.profitable)).length
    winning_rate :=
      ((analyses.filter (·.profitable)).length : ℚ) / (analyses.length : ℚ) * 100
    avg_max_gain := npMean (analyses.map (·.max_gain))
    avg_max_gain_points := npMean (analyses.map (·.max_gain_points))
    avg_max_drawdown := npMean (analyses.map (·.max_drawdown))
    avg_max_drawdown_points := npMean (analyses.map (·.max_drawdown_points))
    avg_suggested_stoploss := npMean (analyses.map (·.suggested_stoploss_pct))
    avg_days_to_recovery :=
      if analyses.any (·.days_to_recovery.isSome)
      then some (npMean ((analyses.filterMap (·.days_to_recovery)).map (fun n => (n : ℚ))))
      else none
    went_down_then_up_count := (analyses.filter (·.went_down_then_up)).length
    went_up_continuously_count := (analyses.filter (·.went_up_continuously)).length
    data_points := df.length
    period_start := df.head?.map (·.date)
    period_end := df.getLast?.map (·.date) }

/-- `SMACrossoverAnalyzer.analyze_timeframe` (lines 268-339), starting from
the fetched data (the network fetch itself is the external collaborator):
SMA, detection, per-event analysis, aggregation.  Zero crossovers yield the
zero-count dictionary carrying only the span. -/
def analyze_timeframe (data : Option (List RawBar)) (period : ℕ) (name : String) :
    Option TimeframeSummary :=
  match data with
  | none => none
  | some d =>
    if d.length = 0 then none
    else
      match calculate_sma period (some d) with
      | none => none
      | some df =>
        let crossovers := identify_crossovers df
        if crossovers.length = 0 then
          some (.empty name 0 df.length (df.head?.map (·.date)) (df.getLast?.map (·.date)))
        else
          let analyses := crossovers.filterMap fun idx => analyze_crossover df idx 100
          if analyses.length = 0 then none
          else some (.full (mkFullSummary name df analyses))

/-- The result-collecting loop of `run_full_analysis` (lines 372-415):
per configured resolution, keep the summary when one is produced, skip the
resolution otherwise. -/
def collectResults (period : ℕ) :
    List (Option (List RawBar) × String) → List TimeframeSummary
  | [] => []
  | t :: ts =>
    match analyze_timeframe t.1 period t.2 with
    | some s => s :: collectResults period ts
    | none => collectResults period ts

/-- `SMACrossoverAnalyzer.run_full_analysis` (lines 341-420) over the
per-resolution fetched data: collect the usable summaries; report overall
failure (`None`) when no resolution produced one. -/
def run_full_analysis (period : ℕ)
    (inputs : List (Option (List RawBar) × String)) : Option (List TimeframeSummary) :=
  let results := collectResults period inputs
  if results.length = 0 then none else some results

/-- Data interval accepted by `_generate_synthetic_data` (lines 72-90). -/
inductive Interval where
  | h1 | h4 | d1 | wk1 | mo1 | other
deriving DecidableEq

/-- Period count per interval (lines 73-90). -/
def numPeriods (iv : Interval) (years : ℕ) : ℕ :=
  match iv with
  | .h1 => 730 * 24
  | .h4 => 730 * 6
  | .d1 => 365 * years
  | .wk1 => 52 * years
  | .mo1 => 12 * years
  | .other => 365 * years

/-- Step of the pandas frequency string in hours.  Calendar anchoring of
the weekly/month-start offsets is abstracted to a fixed stride; only the
end-anchoring at the current time matters to the claims below. -/
def freqStep (iv : Interval) : ℤ :=
  match iv with
  | .h1 => 1
  | .h4 => 4
  | .d1 => 24
  | .wk1 => 24 * 7
  | .mo1 => 24 * 30
  | .other => 24

/-- `pd.date_range(end=datetime.now(), periods=..., freq=...)` (lines
93-94): an arithmetic progression of `numPeriods` timestamps ENDING at the
current time `now`. -/
def synthTimestamps (now : ℤ) (iv : Interval) (years : ℕ) : List ℤ :=
  (List.range (numPeriods iv years)).map fun k =>
    now - ((numPeriods iv years : ℤ) - 1 - (k : ℤ)) * freqStep iv

/-- The pseudo-random draw streams fixed by `np.random.seed(42)` (line
100).  Two calls with the same seed consume identical streams, so the
streams are passed explicitly: `normal` models the
`np.random.normal(trend, volatility, n)` return draws, and the four
uniform streams model the high/low/open jitters and the volume draws
(lines 109, 117-121). -/
structure RandomStreams where
  normal : ℕ → ℝ
  uniHigh : ℕ → ℝ
  uniLow : ℕ → ℝ
  uniOpen : ℕ → ℝ
  uniVol : ℕ → ℝ

/-- `np.linspace(0, 4*pi, n)` at position `k`. -/
noncomputable def linspace4pi (n k : ℕ) : ℝ :=
  4 * Real.pi * (k : ℝ) / ((n : ℝ) - 1)

/-- The close column of the synthetic data (lines 103-120): a
multiplicative random walk from 3000 plus a sinusoidal cycle overlay. -/
noncomputable def synthPrice (rs : RandomStreams) (n k : ℕ) : ℝ :=
  3000 * Real.exp (∑ j ∈ Finset.range (k + 1), rs.normal j) +
    200 * Real.sin (linspace4pi n k)

/-- The synthetic DataFrame, column-wise. -/
structure SynthSeries where
  dates : List ℤ
  open_ : List ℝ
  high : List ℝ
  low : List ℝ
  close : List ℝ
  volume : List ℝ

/-- `SMACrossoverAnalyzer._generate_synthetic_data` (lines 62-132):
timestamps end-anchored at the ambient current time `now`; all numeric
columns are functions of the draw streams and the actual period count
(which equals the requested one). -/
noncomputable def generate_synthetic_data (rs : RandomStreams) (now : ℤ)
    (iv : Interval) (years : ℕ) : SynthSeries :=
  let dates := synthTimestamps now iv years
  let n := dates.length
  { dates := dates
    open_ := (List.range n).map fun k => synthPrice rs n k + rs.uniOpen k
    high := (List.range n).map fun k => synthPrice rs n k * (1 + rs.uniHigh k)
    low := (List.range n).map fun k => synthPrice rs n k * (1 - rs.uniLow k)
    close := (List.range n).map fun k => synthPrice rs n k
    volume := (List.range n).map fun k => rs.uniVol k }

/-! Concrete inputs used by the scenario theorems and witnesses. -/

/-- The spec scenario series: 60 daily bars, 50-period window, close 90
(below the constant 100-valued MA) up to bar 50 (index 49), jumping to 110
at bar 51 (index 50); the MA column is NaN before the window fills at
index 49 and 100 from there on. -/
def scenario60 : List Bar :=
  (List.range 60).map fun k =>
    ⟨(k : ℤ), if k ≤ 49 then 90 else 110, if 49 ≤ k then some 100 else none⟩

/-- A four-bar raw series (closes 10, 10, 0, 100) that, with a 2-period
SMA, drives the full pipeline into the index-misalignment failure. -/
def rawBug : List RawBar :=
  [⟨0, 0, 0, 0, 10, 0⟩, ⟨1, 0, 0, 0, 10, 0⟩, ⟨2, 0, 0, 0, 0, 0⟩, ⟨3, 0, 0, 0, 100, 0⟩]

/-- `rawBug` after `calculate_sma 2`: SMA column NaN, 10, 5, 50. -/
def dfBug : List Bar :=
  [⟨0, 10, none⟩, ⟨1, 10, some 10⟩, ⟨2, 0, some 5⟩, ⟨3, 100, some 50⟩]

/-- The forward-window scenario of the spec: entry close 110 and forward
closes 110, 108, 95, 105, 112 (the SMA column is irrelevant to the
asserted fields and left NaN). -/
def df5 : List Bar :=
  [⟨0, 110, none⟩, ⟨1, 108, none⟩, ⟨2, 95, none⟩, ⟨3, 105, none⟩, ⟨4, 112, none⟩]

/-- All-zero draw streams, a concrete instantiation of the seed-42 streams. -/
def zeroStreams : RandomStreams :=
  ⟨fun _ => 0, fun _ => 0, fun _ => 0, fun _ => 0, fun _ => 0⟩

/-- A three-bar raw series with strictly decreasing closes: its 2-period
SMA exists but no upward crossover ever fires. -/
def rawD3 : List RawBar :=
  [⟨0, 0, 0, 0, 10, 0⟩, ⟨1, 0, 0, 0, 5, 0⟩, ⟨2, 0, 0, 0, 3, 0⟩]

/-- `rawD3` after `calculate_sma 2`. -/
def dfD3 : List Bar := [⟨0, 10, none⟩, ⟨1, 5, some (15 / 2)⟩, ⟨2, 3, some 4⟩]

/-- Resolution configuration with one failing source and one usable one. -/
def inputsTwo : List (Option (List RawBar) × String) :=
  [(none, "Daily"), (some rawD3, "Weekly")]

/-! Claim theorems. -/

/-- C1: the claim says the index carried by a crossover event and the index
the outcome analyzer reads from the series refer to the same bar, so that
the entry price is the close (and the entry MA the MA) at the event's bar.
The code violates this: on `rawBug` with a 2-period window the pipeline of
`analyze_timeframe` detects the crossover at position 2 of the NaN-dropped
frame — series bar 3, close 100, MA 50 — yet `analyze_crossover`, indexing
the full frame with that position, records entry price 0 and entry MA 5,
the values of series bar 2. -/
theorem crossover_entry_reads_wrong_bar :
    calculate_sma 2 (some rawBug) = some dfBug ∧
    identify_crossovers dfBug = [2] ∧
    validOrigIndices dfBug = [1, 2, 3] ∧
    (dfBug.getD 3 default).close = 100 ∧
    (dfBug.getD 3 default).sma = some 50 ∧
    (analyze_crossover dfBug 2 100).map (·.entry_price) = some 0 ∧
    (analyze_crossover dfBug 2 100).map (·.entry_sma) = some (some 5) ∧
    ((0 : ℚ) ≠ 100 ∧ some (5 : ℚ) ≠ some 50) := by
  with_unfolding_all decide

/-- C2 counterexample: on the spec's 60-bar scenario the detector does NOT
produce the event list `[50]`; the claim "exactly one CrossoverEvent at
index 50 of the series" fails as stated. -/
theorem scenario60_event_not_at_series_index :
    identify_crossovers scenario60 ≠ [50] := by
  decide

/-- C2 (amended): the detector produces exactly one event, at position 1
of the NaN-dropped valid frame, and the bar at that valid position is
series index 50. -/
theorem scenario60_single_event_position :
    identify_crossovers scenario60 = [1] ∧
    (validOrigIndices scenario60).getD 1 0 = 50 := by
  decide

/-- C6: on the forward window with closes 110, 108, 95, 105, 112 the
outcome analyzer reports max gain 2 points, max drawdown -15 points,
points captured 2, a profitable trade, and a suggested stop loss of
15/110*100 + 1 percent. -/
theorem outcome_forward_window_scenario :
    (analyze_crossover df5 0 100).map
        (fun a => (a.max_gain_points, a.max_drawdown_points, a.points_captured,
          a.profitable, a.suggested_stoploss_pct)) =
      some (2, -15, 2, true, 15 / 110 * 100 + 1) := by
  with_unfolding_all decide


/-- Sum of a `drop`/`take` window as a finite sum over offsets. -/
theorem take_drop_sum (l : List ℚ) (a w : ℕ) (h : a + w ≤ l.length) :
    ((l.drop a).take w).sum = ∑ j ∈ Finset.range w, l.getD (a + j) 0 := by
  induction w generalizing a with
  | zero => simp
  | succ n ih =>
    have ha : a < l.length := by omega
    rw [List.drop_eq_getElem_cons ha, List.take_succ_cons, List.sum_cons,
      Finset.sum_range_succ']
    have h2 : a + 1 + n ≤ l.length := by omega
    rw [ih (a + 1) h2]
    have hga : l.getD (a + 0) 0 = l[a] := by
      rw [Nat.add_zero, List.getD_eq_getElem l 0 ha]
    rw [hga, add_comm]
    congr 1
    exact Finset.sum_congr rfl fun j _ => by
      rw [show a + 1 + j = a + (j + 1) from by omega]

/-- Number of indices below `n` at which a `w`-window has filled. -/
theorem length_filter_le_range (w n : ℕ) :
    ((List.range n).filter (fun i => decide (w ≤ i + 1))).length = n - (w - 1) := by
  induction n with
  | zero => simp
  | succ n ih =>
    rw [List.range_succ, List.filter_append, List.length_append, ih]
    by_cases hw : w ≤ n + 1 <;> simp [List.filter_cons, hw] <;> omega

/-- C4: for every series of length `n` and positive window `w`, the MA
calculator fails when `n < w`; otherwise it returns a series of length `n`
whose value at each index `i ≥ w-1` is the mean of the closes at indices
`i-w+1 .. i`, is undefined at each index `i < w-1`, and which therefore
has exactly `n - w + 1` defined values, all at the trailing indices. -/
theorem calculate_sma_spec (w : ℕ) (d : List RawBar) (hw : 0 < w) :
    (d.length < w → calculate_sma w (some d) = none) ∧
    (w ≤ d.length → ∃ out, calculate_sma w (some d) = some out ∧
      out.length = d.length ∧
      (∀ i, i < d.length → w - 1 ≤ i →
        (out.getD i default).sma =
          some ((∑ j ∈ Finset.range w, (d.getD (i + 1 - w + j) default).close) / (w : ℚ))) ∧
      (∀ i, i < w - 1 → (out.getD i default).sma = none) ∧
      (out.filter (fun b => b.sma.isSome)).length = d.length + 1 - w) := by
  constructor
  · intro hlt
    simp [calculate_sma, hlt]
  · intro hle
    refine ⟨(List.range d.length).map (smaRow w d), ?_, ?_, ?_, ?_, ?_⟩
    · simp [calculate_sma, Nat.not_lt.mpr hle]
    · simp
    · intro i hi hwi
      have hi' : i < (List.range d.length).length := by simpa using hi
      rw [List.getD_eq_getElem _ _ (by simpa using hi), List.getElem_map, List.getElem_range]
      simp only [smaRow, rollingMean, if_pos (by omega : w ≤ i + 1)]
      congr 1
      have hb : i + 1 - w + w ≤ (d.map (·.close)).length := by
        simp only [List.length_map]; omega
      rw [take_drop_sum _ _ _ hb]
      congr 1
      refine Finset.sum_congr rfl fun j _ => ?_
      have := List.getD_map d default (n := i + 1 - w + j) (·.close)
      rw [← this]
      rfl
    · intro i hiw
      have hi : i < d.length := by omega
      rw [List.getD_eq_getElem _ _ (by simpa using hi), List.getElem_map, List.getElem_range]
      simp only [smaRow, rollingMean, if_neg (by omega : ¬ w ≤ i + 1)]
    · rw [List.filter_map]
      simp only [List.length_map]
      have hcong : ∀ x ∈ List.range d.length,
          ((fun b => b.sma.isSome) ∘ smaRow w d) x = (fun i => decide (w ≤ i + 1)) x := by
        intro x _
        simp only [Function.comp, smaRow, rollingMean]
        by_cases hx : w ≤ x + 1
        · simp [hx]
        · simp [hx]
      rw [List.filter_congr hcong, length_filter_le_range]
      omega


/-- C5: the detector reports position `i` (within the NaN-dropped valid
frame) iff `1 ≤ i < len`, `close[i-1] < MA[i-1]` and `close[i] ≥ MA[i]` at
the immediately preceding valid row; the reported positions are strictly
ascending (hence no duplicates); and with fewer than 2 valid MA points the
event list is empty rather than an error. -/
theorem identify_crossovers_spec (df : List Bar) (i : ℕ) :
    (i ∈ identify_crossovers df ↔
      1 ≤ i ∧ i < (validBars df).length ∧
      ((validBars df).getD (i - 1) (0, 0)).1 < ((validBars df).getD (i - 1) (0, 0)).2 ∧
      ((validBars df).getD i (0, 0)).2 ≤ ((validBars df).getD i (0, 0)).1) ∧
    List.Pairwise (· < ·) (identify_crossovers df) ∧
    ((validBars df).length < 2 → identify_crossovers df = []) := by
  unfold identify_crossovers
  by_cases h2 : (validBars df).length < 2
  · rw [if_pos h2]
    refine ⟨?_, List.Pairwise.nil, fun _ => rfl⟩
    simp only [List.not_mem_nil, false_iff]
    rintro ⟨h1, hlen, -⟩
    omega
  · rw [if_neg h2]
    refine ⟨?_, (List.pairwise_lt_range' 1 _).filter _, fun h => absurd h h2⟩
    rw [List.mem_filter, List.mem_range'_1]
    constructor
    · rintro ⟨⟨hlo, hhi⟩, hcond⟩
      rw [Bool.and_eq_true, decide_eq_true_eq, decide_eq_true_eq] at hcond
      exact ⟨hlo, by omega, hcond.1, hcond.2⟩
    · rintro ⟨hlo, hhi, hc1, hc2⟩
      exact ⟨⟨hlo, by omega⟩, by
        rw [Bool.and_eq_true, decide_eq_true_eq, decide_eq_true_eq]
        exact ⟨hc1, hc2⟩⟩


/-- One scan step never decreases the running maximum. -/
theorem scanStep_max_mono (entry : ℚ) (st : ScanState) (b : Bar) :
    st.max_price ≤ (scanStep entry st b).max_price := by
  simp only [scanStep]
  split
  · exact le_of_lt (by assumption)
  · exact le_refl _

/-- One scan step never increases the running minimum. -/
theorem scanStep_min_mono (entry : ℚ) (st : ScanState) (b : Bar) :
    (scanStep entry st b).min_price ≤ st.min_price := by
  simp only [scanStep]
  split
  · exact le_of_lt (by assumption)
  · exact le_refl _

/-- The running maximum of the scan loop never drops below its start. -/
theorem foldl_scan_max (entry : ℚ) (l : List Bar) (st : ScanState) :
    st.max_price ≤ (l.foldl (scanStep entry) st).max_price := by
  induction l generalizing st with
  | nil => exact le_refl _
  | cons b l ih => exact le_trans (scanStep_max_mono entry st b) (ih _)

/-- The running minimum of the scan loop never rises above its start. -/
theorem foldl_scan_min (entry : ℚ) (l : List Bar) (st : ScanState) :
    (l.foldl (scanStep entry) st).min_price ≤ st.min_price := by
  induction l generalizing st with
  | nil => exact le_refl _
  | cons b l ih => exact le_trans (ih _) (scanStep_min_mono entry st b)

/-- C7: every outcome record has `max_gain_points ≥ 0` and
`max_drawdown_points ≤ 0`, because both running extremes start at the
entry price itself. -/
theorem outcome_extremes_signed (df : List Bar) (idx lookforward : ℕ) (a : OutcomeRecord)
    (h : analyze_crossover df idx lookforward = some a) :
    0 ≤ a.max_gain_points ∧ a.max_drawdown_points ≤ 0 := by
  simp only [analyze_crossover] at h
  split at h
  · exact absurd h (by simp)
  · rw [Option.some.injEq] at h
    subst h
    constructor
    · have := foldl_scan_max ((df.getD idx default).close)
        ((List.take (min (idx + lookforward) df.length - idx) (df.drop idx)).drop 1)
        { max_price := (df.getD idx default).close, min_price := (df.getD idx default).close,
          touched_sma := false, days_to_touch := none, recovery_date := none, step_i := 1 }
      simpa using this
    · have := foldl_scan_min ((df.getD idx default).close)
        ((List.take (min (idx + lookforward) df.length - idx) (df.drop idx)).drop 1)
        { max_price := (df.getD idx default).close, min_price := (df.getD idx default).close,
          touched_sma := false, days_to_touch := none, recovery_date := none, step_i := 1 }
      simpa using this

/-- C10: in every outcome record the flags are consistent: `bounced` and
`went_down_then_up` are never both true, and `bounced` coincides with
`went_up_continuously`. -/
theorem outcome_flags_classification (df : List Bar) (idx lookforward : ℕ)
    (a : OutcomeRecord) (h : analyze_crossover df idx lookforward = some a) :
    (a.bounced && a.went_down_then_up) = false ∧ a.bounced = a.went_up_continuously := by
  simp only [analyze_crossover] at h
  split at h
  · exact absurd h (by simp)
  · rw [Option.some.injEq] at h
    subst h
    refine ⟨?_, rfl⟩
    have hbool : ∀ b c : Bool, (b && (!b && c)) = false := by decide
    exact hbool _ _


/-- C8: when the detector returns no events, the timeframe stage emits the
zero-count summary carrying only the label, the number of data points and
the covered date span — the constructor has no winning-rate field and no
averaged statistics. -/
theorem timeframe_empty_events (d : List RawBar) (period : ℕ) (name : String)
    (df : List Bar) (hd : d.length ≠ 0)
    (hsma : calculate_sma period (some d) = some df)
    (hcross : identify_crossovers df = []) :
    analyze_timeframe (some d) period name =
      some (.empty name 0 df.length (df.head?.map (·.date)) (df.getLast?.map (·.date))) := by
  simp only [analyze_timeframe, hsma, hcross, hd, if_neg hd, List.length_nil, if_pos rfl]
  simp

/-- C9: the orchestrator's result list is exactly the summaries of the
resolutions whose analysis succeeded (failing resolutions are omitted,
in order); when zero resolutions succeed it reports overall failure
(`none`) rather than an empty report, and any returned report is the
non-empty list of exactly those summaries. -/
theorem run_full_analysis_spec (period : ℕ)
    (inputs : List (Option (List RawBar) × String)) :
    collectResults period inputs =
      inputs.filterMap (fun p => analyze_timeframe p.1 period p.2) ∧
    (∀ s, s ∈ collectResults period inputs ↔
      ∃ p ∈ inputs, analyze_timeframe p.1 period p.2 = some s) ∧
    (collectResults period inputs = [] → run_full_analysis period inputs = none) ∧
    (∀ r, run_full_analysis period inputs = some r →
      r = collectResults period inputs ∧ r ≠ []) := by
  have hfm : collectResults period inputs =
      inputs.filterMap (fun p => analyze_timeframe p.1 period p.2) := by
    induction inputs with
    | nil => rfl
    | cons t ts ih =>
      rw [List.filterMap_cons]
      cases h : analyze_timeframe t.1 period t.2 with
      | none => rw [collectResults, h, ih]
      | some s => rw [collectResults, h, ih]
  refine ⟨hfm, ?_, ?_, ?_⟩
  · intro s
    rw [hfm, List.mem_filterMap]
  · intro h
    rw [run_full_analysis, h]
    rfl
  · intro r hr
    rw [run_full_analysis] at hr
    by_cases h0 : (collectResults period inputs).length = 0
    · rw [if_pos h0] at hr
      exact absurd hr (by simp)
    · rw [if_neg h0] at hr
      rw [Option.some.injEq] at hr
      subst hr
      exact ⟨rfl, by simpa [← List.length_eq_zero] using h0⟩


/-- C3 counterexample: the synthetic generator is NOT invariant in the
call time: with the identical draw streams (same seed) and identical
requested length, two calls whose ambient current time differs produce
different series — the timestamp index is anchored at the current time. -/
theorem synthetic_not_call_time_invariant :
    generate_synthetic_data zeroStreams 0 .d1 1 ≠
      generate_synthetic_data zeroStreams 24 .d1 1 := by
  intro h
  have hd := congrArg (fun s => s.dates.getD 0 0) h
  simp only [generate_synthetic_data] at hd
  revert hd
  decide

/-- C3 (amended): with identical draw streams (same seed) and identical
requested length, the open/high/low/close/volume columns are identical
regardless of the call time, and calls made at the same current time
reproduce the identical series, timestamps included. -/
theorem synthetic_price_fields_seed_determined (rs : RandomStreams) (now₁ now₂ : ℤ)
    (iv : Interval) (years : ℕ) :
    (generate_synthetic_data rs now₁ iv years).open_ =
      (generate_synthetic_data rs now₂ iv years).open_ ∧
    (generate_synthetic_data rs now₁ iv years).high =
      (generate_synthetic_data rs now₂ iv years).high ∧
    (generate_synthetic_data rs now₁ iv years).low =
      (generate_synthetic_data rs now₂ iv years).low ∧
    (generate_synthetic_data rs now₁ iv years).close =
      (generate_synthetic_data rs now₂ iv years).close ∧
    (generate_synthetic_data rs now₁ iv years).volume =
      (generate_synthetic_data rs now₂ iv years).volume ∧
    (now₁ = now₂ →
      generate_synthetic_data rs now₁ iv years = generate_synthetic_data rs now₂ iv years) := by
  have hlen : (synthTimestamps now₁ iv years).length = (synthTimestamps now₂ iv years).length := by
    simp [synthTimestamps]
  refine ⟨?_, ?_, ?_, ?_, ?_, fun h => by rw [h]⟩ <;>
    simp only [generate_synthetic_data, hlen]


/-- Witness for `calculate_sma_spec` at window 2 on `rawD3`. -/
theorem calculate_sma_spec_witness :
    0 < 2 ∧
    ((rawD3.length < 2 → calculate_sma 2 (some rawD3) = none) ∧
      (2 ≤ rawD3.length → ∃ out, calculate_sma 2 (some rawD3) = some out ∧
        out.length = rawD3.length ∧
        (∀ i, i < rawD3.length → 2 - 1 ≤ i →
          (out.getD i default).sma =
            some ((∑ j ∈ Finset.range 2, (rawD3.getD (i + 1 - 2 + j) default).close) / (2 : ℚ))) ∧
        (∀ i, i < 2 - 1 → (out.getD i default).sma = none) ∧
        (out.filter (fun b => b.sma.isSome)).length = rawD3.length + 1 - 2)) :=
  ⟨by decide, calculate_sma_spec 2 rawD3 (by decide)⟩

/-- Witness for `identify_crossovers_spec` at `dfD3`, position 1. -/
theorem identify_crossovers_spec_witness :
    (1 ∈ identify_crossovers dfD3 ↔
      1 ≤ 1 ∧ 1 < (validBars dfD3).length ∧
      ((validBars dfD3).getD (1 - 1) (0, 0)).1 < ((validBars dfD3).getD (1 - 1) (0, 0)).2 ∧
      ((validBars dfD3).getD 1 (0, 0)).2 ≤ ((validBars dfD3).getD 1 (0, 0)).1) ∧
    List.Pairwise (· < ·) (identify_crossovers dfD3) ∧
    ((validBars dfD3).length < 2 → identify_crossovers dfD3 = []) :=
  identify_crossovers_spec dfD3 1

/-- Witness for `outcome_extremes_signed` on the `df5` forward window. -/
theorem outcome_extremes_signed_witness :
    0 ≤ ((analyze_crossover df5 0 100).getD default).max_gain_points ∧
      ((analyze_crossover df5 0 100).getD default).max_drawdown_points ≤ 0 :=
  outcome_extremes_signed df5 0 100 ((analyze_crossover df5 0 100).getD default)
    (by with_unfolding_all decide)

/-- Witness for `outcome_flags_classification` on the `df5` window. -/
theorem outcome_flags_classification_witness :
    (((analyze_crossover df5 0 100).getD default).bounced &&
      ((analyze_crossover df5 0 100).getD default).went_down_then_up) = false ∧
    ((analyze_crossover df5 0 100).getD default).bounced =
      ((analyze_crossover df5 0 100).getD default).went_up_continuously :=
  outcome_flags_classification df5 0 100 ((analyze_crossover df5 0 100).getD default)
    (by with_unfolding_all decide)

/-- Witness for `timeframe_empty_events` on `rawD3`. -/
theorem timeframe_empty_events_witness :
    analyze_timeframe (some rawD3) 2 "Daily" =
      some (.empty "Daily" 0 dfD3.length (dfD3.head?.map (·.date))
        (dfD3.getLast?.map (·.date))) :=
  timeframe_empty_events rawD3 2 "Daily" dfD3 (by decide)
    (by with_unfolding_all decide) (by with_unfolding_all decide)

/-- Witness for `run_full_analysis_spec`: one failing resolution is
omitted and the surviving summary is returned. -/
theorem run_full_analysis_spec_witness :
    [TimeframeSummary.empty "Weekly" 0 dfD3.length (dfD3.head?.map (·.date))
        (dfD3.getLast?.map (·.date))] = collectResults 2 inputsTwo ∧
    [TimeframeSummary.empty "Weekly" 0 dfD3.length (dfD3.head?.map (·.date))
        (dfD3.getLast?.map (·.date))] ≠ ([] : List TimeframeSummary) :=
  (run_full_analysis_spec 2 inputsTwo).2.2.2
    [TimeframeSummary.empty "Weekly" 0 dfD3.length (dfD3.head?.map (·.date))
      (dfD3.getLast?.map (·.date))] (by with_unfolding_all decide)

/-- Witness for `synthetic_price_fields_seed_determined` at concrete
streams and times. -/
theorem synthetic_price_fields_witness :
    (generate_synthetic_data zeroStreams 0 .d1 1).close =
      (generate_synthetic_data zeroStreams 24 .d1 1).close ∧
    generate_synthetic_data zeroStreams 5 .d1 0 = generate_synthetic_data zeroStreams 5 .d1 0 :=
  ⟨(synthetic_price_fields_seed_determined zeroStreams 0 24 .d1 1).2.2.2.1,
   (synthetic_price_fields_seed_determined zeroStreams 5 5 .d1 0).2.2.2.2.2 rfl⟩

end SMACrossover
